import Mathlib

/-!
Verification development for the GoFaas asynchronous execution pipeline.

The definitions below are a shallow embedding of the Go sources:
the Redis-backed queue (internal/messaging/redis.go), the invocation
service (internal/core/invocation/models.go), the Postgres invocation
update (internal/storage/metadata/postgres.go), the worker loop
(internal/worker), and the execution runtimes (internal/worker/runtime).
External effects (Redis commands, SQL, the container engine, the clock)
are modelled by explicit state passing and oracle records describing the
outcome of each external call.
-/

namespace GoFaas

/-- Execution status of an invocation (pkg/types/execution.go). -/
inductive ExecutionStatus where
  | pending
  | running
  | completed
  | failed
  | timeout
  deriving DecidableEq, Repr

/-- Method ExecutionStatus.IsTerminal (pkg/types/execution.go): true exactly on
completed, failed and timeout. -/
def ExecutionStatus.IsTerminal : ExecutionStatus → Bool
  | .completed => true
  | .failed => true
  | .timeout => true
  | _ => false

/-- Queue message (internal/messaging/interface.go). The Redis lists store the
JSON serialization of this record. Go json.Marshal is deterministic and
injective on this struct (fixed field order, sorted map keys, RFC3339
time round trip), so equality of the stored strings is modelled as structural
equality of this record. -/
structure Message where
  id : String
  queue : String
  payload : String
  headers : List (String × String)
  attempts : Nat
  enqueuedAt : Nat
  deriving DecidableEq, Repr, Inhabited

/-- State of one named queue: the Redis lists queue:<name> (ready),
processing:<name> and dead_letter:<name>. LPUSH is cons at the head;
BRPOPLPUSH pops the tail of the source list and pushes onto the head of the
destination list. -/
structure QueueState where
  ready : List Message
  processing : List Message
  deadLetter : List Message
  deriving DecidableEq, Repr

def RedisQueue.emptyState : QueueState := ⟨[], [], []⟩

/-- RedisQueue.Enqueue (redis.go lines 28 to 45): builds a fresh message with
Attempts = 0 and LPUSHes its serialization onto the ready list. -/
def RedisQueue.Enqueue (s : QueueState) (id : String) (queueName : String)
    (payload : String) (headers : List (String × String)) (now : Nat) : QueueState :=
  { s with ready :=
      { id := id, queue := queueName, payload := payload, headers := headers,
        attempts := 0, enqueuedAt := now } :: s.ready }

/-- RedisQueue.Dequeue (redis.go lines 47 to 68): BRPOPLPUSH atomically moves
the serialized message from the tail of ready to the head of processing; the
code then unmarshals the moved string and increments Attempts on the returned
copy only, while the entry stored in the processing list keeps the old
Attempts value. -/
def RedisQueue.Dequeue (s : QueueState) : Option Message × QueueState :=
  match s.ready.getLast? with
  | none => (none, s)
  | some m =>
      (some { m with attempts := m.attempts + 1 },
       { s with ready := s.ready.dropLast, processing := m :: s.processing })

/-- Redis LREM with count 1: scan from the head and remove the first element
equal to the given value, if any. -/
def lremOne : List Message → Message → List Message
  | [], _ => []
  | x :: xs, m => if x = m then xs else x :: lremOne xs m

/-- RedisQueue.Ack (redis.go lines 70 to 76): re-serializes the message value
held by the caller and LREMs one matching entry from the processing list. -/
def RedisQueue.Ack (s : QueueState) (m : Message) : QueueState :=
  { s with processing := lremOne s.processing m }

/-- RedisQueue.Nack (redis.go lines 78 to 92): LREM the held message from the
processing list and LPUSH it back onto the ready list. -/
def RedisQueue.Nack (s : QueueState) (m : Message) : QueueState :=
  { s with processing := lremOne s.processing m, ready := m :: s.ready }

/-- Assignment into the Headers map, as in message.Headers[k] = v. -/
def setHeader (hs : List (String × String)) (k v : String) : List (String × String) :=
  match hs with
  | [] => [(k, v)]
  | (k0, v0) :: rest => if k0 = k then (k, v) :: rest else (k0, v0) :: setHeader rest k v

/-- RedisQueue.DeadLetter (redis.go lines 94 to 114): mutates the held message
headers with the reason and a timestamp, then LREMs the mutated serialization
from processing and LPUSHes it onto the dead-letter list. -/
def RedisQueue.DeadLetter (s : QueueState) (m : Message) (reason : String) (now : Nat) :
    QueueState :=
  let hs1 := setHeader m.headers "dead_letter_reason" reason
  let hs2 := setHeader hs1 "dead_lettered_at" (toString now)
  let m1 := { m with headers := hs2 }
  { s with processing := lremOne s.processing m1,
           deadLetter := m1 :: s.deadLetter }

/-- RedisQueue.GetStats (redis.go lines 116 to 132): Size is the LLEN of the
ready list. -/
def RedisQueue.GetStats (s : QueueState) : Nat := s.ready.length

/-- Membership of a message id in the ready bucket. -/
def inReady (s : QueueState) (i : String) : Bool := s.ready.any (fun m => m.id = i)

/-- Membership of a message id in the processing bucket. -/
def inProcessing (s : QueueState) (i : String) : Bool := s.processing.any (fun m => m.id = i)

/-- Membership of a message id in the dead-letter bucket. -/
def inDeadLetter (s : QueueState) (i : String) : Bool := s.deadLetter.any (fun m => m.id = i)

/-- Number of distinct buckets that hold some message with the given id. -/
def bucketCount (s : QueueState) (i : String) : Nat :=
  (if inReady s i then 1 else 0) + (if inProcessing s i then 1 else 0) +
    (if inDeadLetter s i then 1 else 0)

/-- Structured execution error (pkg/types/execution.go). The Stack field is the
empty string when absent, matching the Go zero value. -/
structure ExecutionError where
  type : String
  message : String
  stack : String
  deriving DecidableEq, Repr

/-- Execution metrics (pkg/types/execution.go); durations in nanoseconds. -/
structure ExecutionMetrics where
  duration : Nat
  cpuTime : Nat
  memoryPeak : Int
  networkIn : Int
  networkOut : Int
  deriving DecidableEq, Repr

/-- Invocation record (pkg/types Invocation). Time values are abstract Nat
instants; optional columns are Option. -/
structure Invocation where
  id : String
  functionId : String
  payload : String
  headers : List (String × String)
  status : ExecutionStatus
  result : Option String
  error : Option ExecutionError
  metrics : Option ExecutionMetrics
  createdAt : Nat
  startedAt : Option Nat
  completedAt : Option Nat
  deriving DecidableEq, Repr

/-- Service.UpdateInvocationStatus (internal/core/invocation/models.go lines 174
to 192), applied to the fetched invocation row: the status is overwritten
unconditionally; startedAt is set on a running write when still unset;
completedAt is set on a terminal write when still unset; now stands for
time.Now(). -/
def Service.UpdateInvocationStatus (inv : Invocation) (status : ExecutionStatus)
    (now : Nat) : Invocation :=
  let i1 := { inv with status := status }
  let i2 := if status = ExecutionStatus.running ∧ i1.startedAt = none then
      { i1 with startedAt := some now } else i1
  if status.IsTerminal ∧ i2.completedAt = none then
    { i2 with completedAt := some now } else i2

/-- Result value of core/invocation ExecutionResult (models.go lines 36 to 41). -/
structure ServiceExecutionResult where
  status : ExecutionStatus
  result : Option String
  error : Option ExecutionError
  metrics : Option ExecutionMetrics
  deriving DecidableEq, Repr

/-- Service.UpdateInvocationResult (models.go lines 195 to 213), applied to the
fetched invocation row: status, result, error and metrics are overwritten;
startedAt is set to now when unset; completedAt is always overwritten with now. -/
def Service.UpdateInvocationResult (inv : Invocation) (r : ServiceExecutionResult)
    (now : Nat) : Invocation :=
  let i1 := { inv with status := r.status, result := r.result,
                       error := r.error, metrics := r.metrics }
  let i2 := if i1.startedAt = none then { i1 with startedAt := some now } else i1
  { i2 with completedAt := some now }

/-- Row of the invocations table as addressed by the SQL in
internal/storage/metadata/postgres.go: one column per SELECT or UPDATE column. -/
structure InvocationRow where
  id : String
  functionId : String
  payload : String
  headers : String
  status : ExecutionStatus
  result : Option String
  errorType : Option String
  errorMessage : Option String
  errorStack : Option String
  durationNs : Option Nat
  cpuTimeNs : Option Nat
  memoryPeak : Option Int
  networkIn : Option Int
  networkOut : Option Int
  createdAt : Nat
  startedAt : Option Nat
  completedAt : Option Nat
  deriving DecidableEq, Repr

/-- Effect of the UPDATE statement of PostgresRepository.UpdateInvocation
(postgres.go lines 309 to 357) on a single row whose id matched the WHERE
clause: it SETs status, result, the three error columns (NULL when inv.Error is
nil), the five metric columns (NULL when inv.Metrics is nil), started_at and
completed_at; no other column appears in the SET list. -/
def PostgresRepository.UpdateInvocationRow (row : InvocationRow) (inv : Invocation) :
    InvocationRow :=
  { row with
    status := inv.status
    result := inv.result
    errorType := inv.error.map ExecutionError.type
    errorMessage := inv.error.map ExecutionError.message
    errorStack := inv.error.map ExecutionError.stack
    durationNs := inv.metrics.map ExecutionMetrics.duration
    cpuTimeNs := inv.metrics.map ExecutionMetrics.cpuTime
    memoryPeak := inv.metrics.map ExecutionMetrics.memoryPeak
    networkIn := inv.metrics.map ExecutionMetrics.networkIn
    networkOut := inv.metrics.map ExecutionMetrics.networkOut
    startedAt := inv.startedAt
    completedAt := inv.completedAt }

/-- PostgresRepository.UpdateInvocation over the whole invocations table: rows
whose id equals inv.ID are rewritten by the SET list, all other rows are
untouched. -/
def PostgresRepository.UpdateInvocation (table : List InvocationRow) (inv : Invocation) :
    List InvocationRow :=
  table.map (fun row =>
    if row.id = inv.id then PostgresRepository.UpdateInvocationRow row inv else row)

/-- Runtime tags (pkg/types RuntimeType is a Go string type). -/
abbrev RuntimeType := String

def RuntimeGo : RuntimeType := "go"

def RuntimePython : RuntimeType := "python"

def RuntimeNodeJS : RuntimeType := "nodejs"

/-- ImageManager.GetRuntimeImage (internal/worker/runtime/docker image manager):
closed switch over the runtime tag, empty string on an unknown tag. -/
def ImageManager.GetRuntimeImage (rt : RuntimeType) : String :=
  if rt = RuntimeGo then "faas-runtime-go:latest"
  else if rt = RuntimePython then "faas-runtime-python:latest"
  else if rt = RuntimeNodeJS then "faas-runtime-nodejs:latest"
  else ""

/-- Resource limits of an execution spec (internal/worker/runtime). -/
structure ResourceLimits where
  memoryBytes : Int
  cpuShares : Int
  timeout : Nat
  deriving DecidableEq, Repr

/-- ExecutionSpec handed from the worker loop to a runtime
(internal/worker/runtime). -/
structure ExecutionSpec where
  functionId : String
  code : String
  runtime : RuntimeType
  handler : String
  payload : String
  environment : List (String × String)
  timeout : Nat
  limits : ResourceLimits
  deriving DecidableEq, Repr

/-- Runtime-level execution result (internal/worker/runtime ExecutionResult).
Result is the empty string when the Go field is nil, matching the zero value;
Metrics is always present. -/
structure RuntimeExecutionResult where
  status : ExecutionStatus
  result : String
  error : Option ExecutionError
  metrics : ExecutionMetrics
  deriving DecidableEq, Repr

/-- Outcome of the container wait as observed by Client.WaitContainer: an exit
status arrived on the status channel, an engine error arrived on the error
channel, or the execution context expired first. -/
inductive WaitOutcome where
  | exited (statusCode : Int)
  | waitErr (msg : String)
  | ctxDeadlineExceeded
  deriving DecidableEq, Repr

/-- Client.WaitContainer (internal/worker/runtime/docker/client.go lines 107 to
124): the error-channel case returns exit code -1 with the wrapped error, the
status-channel case returns the exit status with no error, and context expiry
kills the container and returns -1 with the context error. -/
def Client.WaitContainer : WaitOutcome → Int × Option String
  | .exited c => (c, none)
  | .waitErr m => (-1, some ("error waiting for container: " ++ m))
  | .ctxDeadlineExceeded => (-1, some "context deadline exceeded")

/-- Oracle describing the outcomes of the external calls one
ContainerRuntime.Execute run performs: whether EnsureImage, MkdirAll,
writeCodeToFile, CreateContainer and StartContainer succeed, the wait outcome,
the fetched logs (none when GetContainerLogs fails, in which case the code
substitutes empty logs), and the measured wall-clock duration. The deadline
check execCtx.Err() == DeadlineExceeded holds exactly when the wait outcome is
ctxDeadlineExceeded. GetContainerStats in client.go returns a zero
ContainerStats value, so the stats fields are zero. -/
structure ContainerEnv where
  ensureImageOk : Bool
  mkdirOk : Bool
  writeFileOk : Bool
  createContainerOk : Bool
  startContainerOk : Bool
  waitOutcome : WaitOutcome
  logs : Option String
  durationNs : Nat
  deriving DecidableEq, Repr

/-- Metrics a ContainerRuntime execution reports: wall-clock duration plus the
zero stats of client.go GetContainerStats. -/
def containerMetrics (env : ContainerEnv) : ExecutionMetrics :=
  { duration := env.durationNs, cpuTime := 0, memoryPeak := 0,
    networkIn := 0, networkOut := 0 }

/-- Tail of ContainerRuntime.Execute (part after the container was started,
src/unnamed/part_011 lines 276 to 346): read the wait outcome; on deadline
expiry report TIMEOUT; otherwise fetch logs (empty on log error) and branch on
the exit code, COMPLETED with the logs as result on 0, FAILED with a
RuntimeError naming the exit code otherwise. The wait error itself is never
inspected. -/
def ContainerRuntime.waitPhase (env : ContainerEnv) : RuntimeExecutionResult :=
  let wait := Client.WaitContainer env.waitOutcome
  if env.waitOutcome = WaitOutcome.ctxDeadlineExceeded then
    { status := .timeout, result := "",
      error := some { type := "TimeoutError",
                      message := "Function execution timed out", stack := "" },
      metrics := containerMetrics env }
  else
    let logs := env.logs.getD ""
    if wait.1 = 0 then
      { status := .completed, result := logs, error := none,
        metrics := containerMetrics env }
    else
      { status := .failed, result := "",
        error := some { type := "RuntimeError",
                        message := "Function exited with code " ++ toString wait.1,
                        stack := logs },
        metrics := containerMetrics env }

/-- ContainerRuntime.Execute (src/unnamed/part_011 lines 192 to 346): unknown
runtime and image failures yield structured FAILED results; failures of
MkdirAll, writeCodeToFile, CreateContainer and StartContainer return a Go error
to the caller (the fmt.Errorf strings below); once the container is started the
wait phase always produces a structured result. -/
def ContainerRuntime.Execute (spec : ExecutionSpec) (env : ContainerEnv) :
    Except String RuntimeExecutionResult :=
  let imageName := ImageManager.GetRuntimeImage spec.runtime
  if imageName = "" then
    .ok { status := .failed, result := "",
          error := some { type := "UnsupportedRuntime",
                          message := "unsupported runtime: " ++ spec.runtime,
                          stack := "" },
          metrics := containerMetrics env }
  else if env.ensureImageOk = false then
    .ok { status := .failed, result := "",
          error := some { type := "ImageError",
                          message := "failed to ensure runtime image",
                          stack := "" },
          metrics := containerMetrics env }
  else if env.mkdirOk = false then
    .error "failed to create execution directory"
  else if env.writeFileOk = false then
    .error "failed to write function code"
  else if env.createContainerOk = false then
    .error "failed to create container"
  else if env.startContainerOk = false then
    .error "failed to start container"
  else
    .ok (ContainerRuntime.waitPhase env)

/-- Direct host process built by SimpleRuntime.Execute (src/unnamed/part_011
lines 33 to 134) for a runtime tag: the exec.CommandContext program and the
staged code file name; none on an unsupported tag. -/
def SimpleRuntime.hostCommand (rt : RuntimeType) : Option (String × String) :=
  if rt = RuntimeGo then some ("go", "main.go")
  else if rt = RuntimePython then some ("python3", "main.py")
  else if rt = RuntimeNodeJS then some ("node", "main.js")
  else none

/-- Runtime implementation the worker process ends up with. -/
inductive RuntimeChoice where
  | containerRuntime
  | simpleRuntime
  deriving DecidableEq, Repr

/-- Runtime selection of the worker main (src/unnamed/part_016 lines 77 to 99):
with UseContainer set it builds the container runtime and falls back to the
simple runtime when that initialization fails; with UseContainer unset it
builds the simple runtime directly. -/
def selectRuntime (useContainer : Bool) (containerInitOk : Bool) : RuntimeChoice :=
  if useContainer then
    (if containerInitOk then .containerRuntime else .simpleRuntime)
  else .simpleRuntime

/-- Execution vehicle of each runtime choice: SimpleRuntime.Execute runs the
function code through exec.CommandContext as a direct process on the worker
host, while ContainerRuntime.Execute drives a Docker container. -/
def RuntimeChoice.runsCodeAsHostProcess : RuntimeChoice → Bool
  | .simpleRuntime => true
  | .containerRuntime => false

/-- Registered function record, restricted to the fields the worker reads
(pkg/types Function). -/
structure FunctionRecord where
  id : String
  runtime : RuntimeType
  handler : String
  codeSource : String
  timeout : Nat
  memory : Int
  environment : List (String × String)
  deriving DecidableEq, Repr

/-- ExecutionRequest carried by a queue message
(internal/core/invocation/models.go lines 27 to 33). -/
structure ExecutionRequest where
  invocationId : String
  functionId : String
  payload : String
  headers : List (String × String)
  timeout : Option Nat
  deriving DecidableEq, Repr

/-- Outcome of a repository read: the row, a NotFound error, or an Internal
error (pkg/errors; both error cases are non-nil Go errors to the caller). -/
inductive RepoLookup (α : Type) where
  | found (a : α)
  | notFound
  | internalErr
  deriving DecidableEq

/-- Step of Worker.executeFunction that failed, when one did. -/
inductive ExecFailure where
  | getFunctionFailed
  | retrieveCodeFailed
  | runtimeFailed
  deriving DecidableEq, Repr

/-- Oracle for the external calls of one Worker.executeFunction run: the
function lookup, the code-store retrieve (none when Retrieve errors) and the
runtime execution (none when runtime.Execute returns an error). -/
structure WorkerEnv where
  getFunction : RepoLookup FunctionRecord
  retrieveCode : Option String
  runtimeExec : Option RuntimeExecutionResult
  deriving DecidableEq

/-- Metadata-store write the worker issues during one message. -/
inductive InvocationWrite where
  | setStatus (invocationId : String) (status : ExecutionStatus)
  | setResult (invocationId : String) (r : ServiceExecutionResult)
  deriving DecidableEq, Repr

/-- Reason string family given to DeadLetter by the worker: the invalid-payload
reason of line 111 or the max-retries reason of line 131 of
src/unnamed/part_010, which names the underlying execution error. -/
inductive DeadLetterReason where
  | invalidPayload
  | maxRetriesExceeded (cause : ExecFailure)
  deriving DecidableEq, Repr

/-- Queue operation the worker issues during one message. -/
inductive QueueAction where
  | ackA (m : Message)
  | nackA (m : Message)
  | deadLetterA (m : Message) (reason : DeadLetterReason)
  deriving DecidableEq, Repr

/-- Worker.executeFunction (src/unnamed/part_010 lines 162 to 219): first the
unconditional transition-to-RUNNING write (its error only logged), then the
function lookup, the code retrieve and the runtime execution, each returning a
Go error to processNextMessage on failure; on success the runtime result is
converted to the service-level result. -/
def Worker.executeFunction (req : ExecutionRequest) (env : WorkerEnv) :
    List InvocationWrite × Except ExecFailure ServiceExecutionResult :=
  let writes := [InvocationWrite.setStatus req.invocationId ExecutionStatus.running]
  match env.getFunction with
  | .notFound => (writes, .error .getFunctionFailed)
  | .internalErr => (writes, .error .getFunctionFailed)
  | .found _fn =>
      match env.retrieveCode with
      | none => (writes, .error .retrieveCodeFailed)
      | some _code =>
          match env.runtimeExec with
          | none => (writes, .error .runtimeFailed)
          | some rr =>
              (writes, .ok { status := rr.status, result := some rr.result,
                             error := rr.error, metrics := some rr.metrics })

/-- Observable effects of one Worker.processNextMessage iteration. -/
structure WorkerStep where
  queueActions : List QueueAction
  invocationWrites : List InvocationWrite
  deriving DecidableEq, Repr

/-- Worker.processNextMessage (src/unnamed/part_010 lines 86 to 159): nothing
on an empty dequeue; DeadLetter on an unparsable payload; on an
executeFunction error, Nack when the message has Attempts < 3 and DeadLetter
with the max-retries reason otherwise, with no further invocation write in
either case; on success the result write followed by Ack. -/
def Worker.processNextMessage (msg : Option Message) (parsed : Option ExecutionRequest)
    (env : WorkerEnv) : WorkerStep :=
  match msg with
  | none => { queueActions := [], invocationWrites := [] }
  | some m =>
    match parsed with
    | none =>
        { queueActions := [QueueAction.deadLetterA m DeadLetterReason.invalidPayload],
          invocationWrites := [] }
    | some req =>
        match Worker.executeFunction req env with
        | (writes, .error cause) =>
            if m.attempts < 3 then
              { queueActions := [QueueAction.nackA m], invocationWrites := writes }
            else
              { queueActions :=
                  [QueueAction.deadLetterA m (DeadLetterReason.maxRetriesExceeded cause)],
                invocationWrites := writes }
        | (writes, .ok r) =>
            { queueActions := [QueueAction.ackA m],
              invocationWrites := writes ++ [InvocationWrite.setResult req.invocationId r] }

/-- Check whether a list of worker writes contains one that sets a FAILED
status (either form of write). -/
def writesFailedStatus (ws : List InvocationWrite) : Bool :=
  ws.any (fun w =>
    match w with
    | .setStatus _ st => st = ExecutionStatus.failed
    | .setResult _ r => r.status = ExecutionStatus.failed)

/-- Check whether a list of worker queue actions contains an Ack. -/
def containsAck (as : List QueueAction) : Bool :=
  as.any (fun a =>
    match a with
    | .ackA _ => true
    | _ => false)

/-- C1: the claim fails on the code. Dequeue returns a copy of the message with
Attempts incremented to 1, while the processing list keeps the serialization
with Attempts 0; the LREM issued by Nack therefore matches nothing, and after
enqueue, dequeue and nack the message id "m1" sits in the ready bucket and in
the processing bucket at the same time, in two buckets at once. -/
theorem redis_nack_leaves_message_in_two_buckets :
    (let s1 := RedisQueue.Enqueue RedisQueue.emptyState "m1" "faas_executions" "p" [] 0
     let d := RedisQueue.Dequeue s1
     let s3 := RedisQueue.Nack d.2 (d.1.getD default)
     inReady s3 "m1" = true ∧ inProcessing s3 "m1" = true ∧ bucketCount s3 "m1" = 2) := by
  decide

/-- C2: the claim fails on the code for N = 1. After enqueueing one message,
dequeueing it and acking the returned copy, the ready bucket has size 0 and the
dead-letter bucket is empty as claimed, but the LREM issued by Ack matches the
copy with Attempts 1 against the stored serialization with Attempts 0, removes
nothing, and leaves the processing bucket with size 1 instead of 0. -/
theorem redis_ack_leaves_processing_nonempty :
    (let s1 := RedisQueue.Enqueue RedisQueue.emptyState "m1" "faas_executions" "p" [] 0
     let d := RedisQueue.Dequeue s1
     let s3 := RedisQueue.Ack d.2 (d.1.getD default)
     RedisQueue.GetStats s3 = 0 ∧ s3.deadLetter = [] ∧ s3.processing.length = 1) := by
  decide

/-- C3: the claim fails on the code. On the third delivery (Attempts = 3) of a
message whose execution fails with an infrastructural error, the worker only
dead-letters the message with the max-retries reason; it performs no
invocation write setting FAILED (with or without RetryExhausted), so the only
invocation write of the iteration remains the transition to RUNNING. -/
theorem worker_retry_exhaustion_skips_failed_write :
    (let m : Message := { id := "m1", queue := "faas_executions", payload := "p",
                          headers := [], attempts := 3, enqueuedAt := 0 }
     let req : ExecutionRequest := { invocationId := "i1", functionId := "f1",
                                     payload := "p", headers := [], timeout := none }
     let fn : FunctionRecord := { id := "f1", runtime := RuntimeGo, handler := "h",
                                  codeSource := "loc", timeout := 30, memory := 128,
                                  environment := [] }
     let env : WorkerEnv := { getFunction := RepoLookup.found fn,
                              retrieveCode := some "code", runtimeExec := none }
     let out := Worker.processNextMessage (some m) (some req) env
     out.queueActions =
         [QueueAction.deadLetterA m
           (DeadLetterReason.maxRetriesExceeded ExecFailure.runtimeFailed)] ∧
       out.invocationWrites = [InvocationWrite.setStatus "i1" ExecutionStatus.running] ∧
       writesFailedStatus out.invocationWrites = false) := by
  decide

/-- C4: the claim fails on the code. Service.UpdateInvocationStatus overwrites
the status unconditionally, so the transition-to-RUNNING write the worker
performs when a message for a COMPLETED invocation is delivered again moves
the invocation back to RUNNING, outside the terminal set. -/
theorem update_status_overwrites_terminal :
    (let inv : Invocation :=
       { id := "i1", functionId := "f1", payload := "p", headers := [],
         status := ExecutionStatus.completed, result := some "r", error := none,
         metrics := none, createdAt := 0, startedAt := some 1, completedAt := some 2 }
     let inv1 := Service.UpdateInvocationStatus inv ExecutionStatus.running 7
     inv1.status = ExecutionStatus.running ∧ inv1.status.IsTerminal = false) := by
  decide

/-- C6 counterexample: the claim as stated is false. Applying the identical
terminal result write twice, at times 5 and then 6, does not leave the row
equal to its value after the first apply: the second apply overwrites
completed_at with its own clock reading. -/
theorem second_terminal_write_not_noop :
    (let inv : Invocation :=
       { id := "i1", functionId := "f1", payload := "p", headers := [],
         status := ExecutionStatus.running, result := none, error := none,
         metrics := none, createdAt := 0, startedAt := some 1, completedAt := none }
     let r : ServiceExecutionResult :=
       { status := ExecutionStatus.completed, result := some "ok", error := none,
         metrics := none }
     Service.UpdateInvocationResult (Service.UpdateInvocationResult inv r 5) r 6 ≠
       Service.UpdateInvocationResult inv r 5) := by
  decide

/-- C6 amended: applying the same terminal result write twice leaves status,
result, error, metrics and started_at equal to their values after the first
apply; only completed_at changes, being overwritten with the time of the second
apply (so the second apply is a no-op exactly when it carries the same
timestamp). -/
theorem second_terminal_write_only_moves_completed_at (inv : Invocation)
    (r : ServiceExecutionResult) (t1 t2 : Nat) :
    Service.UpdateInvocationResult (Service.UpdateInvocationResult inv r t1) r t2 =
      { Service.UpdateInvocationResult inv r t1 with completedAt := some t2 } := by
  unfold Service.UpdateInvocationResult
  cases h : inv.startedAt <;> simp [h]

/-- C10: PostgresRepository.UpdateInvocation rewrites only the status, result,
error, metric, started_at and completed_at columns of matching rows; for every
row of the table, the id, function_id, payload, headers and created_at columns
after the update equal their values before it. -/
theorem update_invocation_preserves_identity_columns (table : List InvocationRow)
    (inv : Invocation) :
    List.Forall₂ (fun row row1 =>
        row1.id = row.id ∧ row1.functionId = row.functionId ∧
        row1.payload = row.payload ∧ row1.headers = row.headers ∧
        row1.createdAt = row.createdAt)
      table (PostgresRepository.UpdateInvocation table inv) := by
  induction table with
  | nil => exact List.Forall₂.nil
  | cons r rest ih =>
      simp only [PostgresRepository.UpdateInvocation, List.map] at ih ⊢
      refine List.Forall₂.cons ?_ ih
      by_cases h : r.id = inv.id <;>
        simp [h, PostgresRepository.UpdateInvocationRow]

/-- C5 counterexample: the claim as stated is false. When staging-directory
creation fails, ContainerRuntime.Execute does not return a structured
ExecutionResult; it propagates the error to the worker loop. -/
theorem container_execute_propagates_mkdir_error :
    ContainerRuntime.Execute
        { functionId := "f1", code := "c", runtime := RuntimeGo, handler := "h",
          payload := "p", environment := [], timeout := 30,
          limits := { memoryBytes := 1, cpuShares := 0, timeout := 30 } }
        { ensureImageOk := true, mkdirOk := false, writeFileOk := true,
          createContainerOk := true, startContainerOk := true,
          waitOutcome := WaitOutcome.exited 0, logs := some "", durationNs := 1 } =
      Except.error "failed to create execution directory" := by
  rfl

/-- C5 amended: ContainerRuntime.Execute returns a structured ExecutionResult
in the unsupported-runtime, image-failure, timeout, wait-error and exit paths,
but it propagates an error to the worker loop exactly when, on a supported
runtime with the image ensured, staging-directory creation, code-file writing,
container creation or container start fails. -/
theorem container_execute_error_characterization (spec : ExecutionSpec)
    (env : ContainerEnv) :
    (∃ e, ContainerRuntime.Execute spec env = Except.error e) ↔
      (ImageManager.GetRuntimeImage spec.runtime ≠ "" ∧ env.ensureImageOk = true ∧
        (env.mkdirOk = false ∨ env.writeFileOk = false ∨
          env.createContainerOk = false ∨ env.startContainerOk = false)) := by
  simp only [ContainerRuntime.Execute]
  split_ifs with h1 h2 h3 h4 h5 h6 <;> simp_all

/-- C7 counterexample: the claim as stated is false. When the function lookup
returns NotFound for a message on its first delivery, the worker nacks the
message; it does not ack it and writes no FAILED invocation state (there is no
FunctionMissing write anywhere in the loop). -/
theorem worker_notfound_first_delivery_nacks :
    (let m : Message := { id := "m1", queue := "faas_executions", payload := "p",
                          headers := [], attempts := 1, enqueuedAt := 0 }
     let req : ExecutionRequest := { invocationId := "i1", functionId := "f1",
                                     payload := "p", headers := [], timeout := none }
     let env : WorkerEnv := { getFunction := RepoLookup.notFound,
                              retrieveCode := none, runtimeExec := none }
     let out := Worker.processNextMessage (some m) (some req) env
     out.queueActions = [QueueAction.nackA m] ∧
       containsAck out.queueActions = false ∧
       writesFailedStatus out.invocationWrites = false) := by
  decide

/-- C7 amended: when the function lookup fails (NotFound included), the worker
treats the failure like any infrastructural error: after the RUNNING write it
nacks the message when its Attempts is below 3 and dead-letters it with the
max-retries reason otherwise; it never acks in this path and performs no
further invocation write. -/
theorem worker_notfound_is_retried (m : Message) (req : ExecutionRequest)
    (env : WorkerEnv) (h : env.getFunction = RepoLookup.notFound) :
    Worker.processNextMessage (some m) (some req) env =
      if m.attempts < 3 then
        { queueActions := [QueueAction.nackA m],
          invocationWrites :=
            [InvocationWrite.setStatus req.invocationId ExecutionStatus.running] }
      else
        { queueActions := [QueueAction.deadLetterA m
            (DeadLetterReason.maxRetriesExceeded ExecFailure.getFunctionFailed)],
          invocationWrites :=
            [InvocationWrite.setStatus req.invocationId ExecutionStatus.running] } := by
  simp [Worker.processNextMessage, Worker.executeFunction, h]

/-- Witness for the amended C7 statement at a concrete first-delivery message. -/
theorem worker_notfound_is_retried_witness :
    Worker.processNextMessage
        (some { id := "m1", queue := "faas_executions", payload := "p",
                headers := [], attempts := 1, enqueuedAt := 0 })
        (some { invocationId := "i1", functionId := "f1", payload := "p",
                headers := [], timeout := none })
        { getFunction := RepoLookup.notFound, retrieveCode := none,
          runtimeExec := none } =
      { queueActions := [QueueAction.nackA
          { id := "m1", queue := "faas_executions", payload := "p",
            headers := [], attempts := 1, enqueuedAt := 0 }],
        invocationWrites := [InvocationWrite.setStatus "i1" ExecutionStatus.running] } := by
  have h := worker_notfound_is_retried
    { id := "m1", queue := "faas_executions", payload := "p", headers := [],
      attempts := 1, enqueuedAt := 0 }
    { invocationId := "i1", functionId := "f1", payload := "p", headers := [],
      timeout := none }
    { getFunction := RepoLookup.notFound, retrieveCode := none, runtimeExec := none }
    rfl
  simpa using h

/-- C8 counterexample: the claim as stated is false. With the UseContainer
configuration flag unset the worker main selects the simple runtime, and
SimpleRuntime.Execute runs the function code as a direct process on the worker
host (for the python tag, python3 main.py via exec.CommandContext). -/
theorem worker_can_run_code_as_host_process :
    selectRuntime false true = RuntimeChoice.simpleRuntime ∧
      RuntimeChoice.runsCodeAsHostProcess (selectRuntime false true) = true ∧
      SimpleRuntime.hostCommand RuntimePython = some ("python3", "main.py") := by
  decide

/-- C8 amended: an invocation is executed inside a container exactly when the
worker is configured with UseContainer and the container runtime initializes
successfully; with UseContainer unset, or on container-runtime initialization
failure, the selected simple runtime runs function code as a direct host
process. -/
theorem container_execution_iff_configured (u ok : Bool) :
    RuntimeChoice.runsCodeAsHostProcess (selectRuntime u ok) = !(u && ok) := by
  cases u <;> cases ok <;> rfl

/-- Error type reported by an execution outcome, when it is a structured
result carrying an error. -/
def resultErrorType : Except String RuntimeExecutionResult → Option String
  | .ok r => r.error.map ExecutionError.type
  | .error _ => none

/-- Rendering of the exit code returned by the wait error path. -/
theorem int_neg_one_renders_as_string : toString (-1 : Int) = "-1" := rfl

/-- Concatenation of the exit-code message pieces for exit code -1. -/
theorem exit_message_neg_one :
    "Function exited with code " ++ "-1" = "Function exited with code -1" := rfl

/-- C9 counterexample: the claim as stated is false. On a non-deadline wait
error ContainerRuntime.Execute ignores the error value, takes exit code -1
from Client.WaitContainer and reports a FAILED result with error type
RuntimeError, not ContainerError. -/
theorem wait_error_reports_runtime_error_type :
    (let spec : ExecutionSpec :=
       { functionId := "f1", code := "c", runtime := RuntimeGo, handler := "h",
         payload := "p", environment := [], timeout := 30,
         limits := { memoryBytes := 1, cpuShares := 0, timeout := 30 } }
     let env : ContainerEnv :=
       { ensureImageOk := true, mkdirOk := true, writeFileOk := true,
         createContainerOk := true, startContainerOk := true,
         waitOutcome := WaitOutcome.waitErr "engine unavailable",
         logs := some "L", durationNs := 1 }
     resultErrorType (ContainerRuntime.Execute spec env) = some "RuntimeError" ∧
       resultErrorType (ContainerRuntime.Execute spec env) ≠ some "ContainerError") := by
  decide

/-- C9 amended: when the wait fails with an error that is not a deadline
expiry, ContainerRuntime.Execute still returns a structured FAILED result, but
its error type is RuntimeError and its message is the fixed text naming exit
code -1; the wait error message is discarded, and the stack carries the
fetched logs. -/
theorem wait_error_yields_failed_runtime_error (spec : ExecutionSpec)
    (env : ContainerEnv) (msg : String)
    (himg : ImageManager.GetRuntimeImage spec.runtime ≠ "")
    (h1 : env.ensureImageOk = true) (h2 : env.mkdirOk = true)
    (h3 : env.writeFileOk = true) (h4 : env.createContainerOk = true)
    (h5 : env.startContainerOk = true)
    (hw : env.waitOutcome = WaitOutcome.waitErr msg) :
    ContainerRuntime.Execute spec env =
      Except.ok
        { status := ExecutionStatus.failed, result := "",
          error := some { type := "RuntimeError",
                          message := "Function exited with code -1",
                          stack := env.logs.getD "" },
          metrics := containerMetrics env } := by
  simp [ContainerRuntime.Execute, ContainerRuntime.waitPhase, Client.WaitContainer,
        himg, h1, h2, h3, h4, h5, hw, int_neg_one_renders_as_string,
        exit_message_neg_one]

/-- Witness for the amended C9 statement at a concrete wait-error outcome. -/
theorem wait_error_yields_failed_runtime_error_witness :
    ContainerRuntime.Execute
        { functionId := "f1", code := "c", runtime := RuntimeGo, handler := "h",
          payload := "p", environment := [], timeout := 30,
          limits := { memoryBytes := 1, cpuShares := 0, timeout := 30 } }
        { ensureImageOk := true, mkdirOk := true, writeFileOk := true,
          createContainerOk := true, startContainerOk := true,
          waitOutcome := WaitOutcome.waitErr "engine unavailable",
          logs := some "L", durationNs := 1 } =
      Except.ok
        { status := ExecutionStatus.failed, result := "",
          error := some { type := "RuntimeError",
                          message := "Function exited with code -1",
                          stack := "L" },
          metrics := { duration := 1, cpuTime := 0, memoryPeak := 0,
                       networkIn := 0, networkOut := 0 } } := by
  have h := wait_error_yields_failed_runtime_error
    { functionId := "f1", code := "c", runtime := RuntimeGo, handler := "h",
      payload := "p", environment := [], timeout := 30,
      limits := { memoryBytes := 1, cpuShares := 0, timeout := 30 } }
    { ensureImageOk := true, mkdirOk := true, writeFileOk := true,
      createContainerOk := true, startContainerOk := true,
      waitOutcome := WaitOutcome.waitErr "engine unavailable",
      logs := some "L", durationNs := 1 }
    "engine unavailable" (by decide) rfl rfl rfl rfl rfl rfl
  simpa [containerMetrics] using h

end GoFaas
